import Mathlib

/-!
Verification development for the polymarket-worker run-cycle engine.

The JavaScript source is embedded shallowly: prices, sizes and USD amounts
become exact rationals (`ℚ`), JavaScript `Math.round` becomes `jsRound`
(round half towards positive infinity), `Math.floor` becomes `Int.floor`,
and the per-token decision logic of `runCycle` becomes the pure function
`planToken`.  Each definition names the source location it embeds.
-/

/-- JavaScript `Math.round`: rounds half-way cases towards positive infinity,
so `Math.round x = ⌊x + 1/2⌋`. -/
def jsRound (x : ℚ) : ℤ := ⌊x + 1/2⌋

/-- JavaScript `Math.max` on two arguments (kernel-reducible version of `max`). -/
def jsMax (a b : ℚ) : ℚ := if a ≤ b then b else a

/-- JavaScript `Math.min` on two arguments (kernel-reducible version of `min`). -/
def jsMin (a b : ℚ) : ℚ := if a ≤ b then a else b

theorem jsMax_eq_max (a b : ℚ) : jsMax a b = max a b := by
  unfold jsMax
  by_cases h : a ≤ b
  · simp [h, max_eq_right h]
  · simp [h, max_eq_left (le_of_not_le h)]

theorem jsMin_eq_min (a b : ℚ) : jsMin a b = min a b := by
  unfold jsMin
  by_cases h : a ≤ b
  · simp [h, min_eq_left h]
  · simp [h, min_eq_right (le_of_not_le h)]

/-- From `roundToTick(price, tick)` (part_005 lines 357-360, part_006 lines
460-463): `const t = Number(tick) || 0.01; return Math.round(price / t) * t;`.
A zero tick falls back to `0.01` (the JS `||` catches falsy `0`). -/
def roundToTick (price tick : ℚ) : ℚ :=
  let t := if tick = 0 then 1/100 else tick
  (jsRound (price / t) : ℚ) * t

/-- From `clamp(price, min, max)` (part_005 lines 362-364, part_006 lines
465-467): `Math.max(min, Math.min(max, price))`. -/
def clamp (price lo hi : ℚ) : ℚ := jsMax lo (jsMin hi price)

/-- Top-of-book snapshot as built by `fetchOrderBook` (part_005 lines 318-351):
best bid/ask, per-side top depth in USD, their sum, and the market tick size. -/
structure Book where
  bestBid : ℚ
  bestAsk : ℚ
  bidDepthUsd : ℚ
  askDepthUsd : ℚ
  topSumDepthUsd : ℚ
  tickSize : ℚ
deriving DecidableEq

/-- The `CONFIG` object (part_005 lines 47-79, part_006 lines 58-91), restricted
to the fields the run cycle reads.  Threshold amounts are rationals; bps limits
that are compared against `jsRound` results are integers; order-count caps are
naturals. -/
structure WorkerConfig where
  MIN_BID : ℚ
  MAX_ASK : ℚ
  MAX_SPREAD_BPS : ℤ
  MIN_ASK_DEPTH_USD : ℚ
  MIN_BID_DEPTH_USD : ℚ
  MIN_TOP_SUM_DEPTH_USD : ℚ
  FOK_MIN_DEPTH_USD : ℚ
  MAKER_TICK_IMPROVE : ℚ
  MAKER_MAX_IMPROVE_BPS : ℚ
  MIN_EDGE_BPS : ℤ
  ORDER_USD_PER_TRADE : ℚ
  MAX_POSITION_USD_PER_TOKEN : ℚ
  MAX_TOTAL_POSITION_USD : ℚ
  MAX_OPEN_ORDERS_PER_TOKEN : ℕ
  MIN_ORDER_SIZE : ℚ
  TAKE_PROFIT_BPS : ℤ
  TAKE_PROFIT_USD : ℚ
  MIN_PROFIT_USD : ℚ
  CLOSEOUT_SECONDS : ℤ
deriving DecidableEq

/-- Default configuration of the v5 worker (part_005 lines 47-79):
`ORDER_USD_PER_TRADE = 3`, `MIN_ORDER_SIZE = 3`. -/
def defaultConfigV5 : WorkerConfig where
  MIN_BID := 2/100
  MAX_ASK := 98/100
  MAX_SPREAD_BPS := 3500
  MIN_ASK_DEPTH_USD := 10
  MIN_BID_DEPTH_USD := 10
  MIN_TOP_SUM_DEPTH_USD := 25
  FOK_MIN_DEPTH_USD := 15
  MAKER_TICK_IMPROVE := 1
  MAKER_MAX_IMPROVE_BPS := 50
  MIN_EDGE_BPS := 80
  ORDER_USD_PER_TRADE := 3
  MAX_POSITION_USD_PER_TOKEN := 25
  MAX_TOTAL_POSITION_USD := 100
  MAX_OPEN_ORDERS_PER_TOKEN := 2
  MIN_ORDER_SIZE := 3
  TAKE_PROFIT_BPS := 100
  TAKE_PROFIT_USD := 2/100
  MIN_PROFIT_USD := 5/100
  CLOSEOUT_SECONDS := 60

/-- Default configuration of the v6 worker (part_006 lines 58-91):
`ORDER_USD_PER_TRADE = 2`, `MIN_ORDER_SIZE = 1`. -/
def defaultConfigV6 : WorkerConfig where
  MIN_BID := 2/100
  MAX_ASK := 98/100
  MAX_SPREAD_BPS := 3500
  MIN_ASK_DEPTH_USD := 10
  MIN_BID_DEPTH_USD := 10
  MIN_TOP_SUM_DEPTH_USD := 25
  FOK_MIN_DEPTH_USD := 15
  MAKER_TICK_IMPROVE := 1
  MAKER_MAX_IMPROVE_BPS := 50
  MIN_EDGE_BPS := 80
  ORDER_USD_PER_TRADE := 2
  MAX_POSITION_USD_PER_TOKEN := 25
  MAX_TOTAL_POSITION_USD := 100
  MAX_OPEN_ORDERS_PER_TOKEN := 2
  MIN_ORDER_SIZE := 1
  TAKE_PROFIT_BPS := 100
  TAKE_PROFIT_USD := 2/100
  MIN_PROFIT_USD := 5/100
  CLOSEOUT_SECONDS := 60

/-- Order type passed to `placeOrder`: Good-Till-Cancelled or Fill-Or-Kill. -/
inductive OrdType
  | GTC
  | FOK
deriving DecidableEq

/-- A seed quote as computed by the SEED block (part_006 lines 677-731):
price, size, and the order type used in the corresponding `placeOrder` call. -/
structure SeedQuote where
  px : ℚ
  size : ℚ
  ordType : OrdType
deriving DecidableEq

/-- The SEED-mode quote computation (part_006 lines 678-689, with the `GTC`
order type taken from the `placeOrder` calls at lines 704-713 and 736-745):
`fair = clamp(SEED_FAIR_PRICE, 0.05, 0.95)`,
`half = max(tick, fair * (SEED_HALF_SPREAD_BPS / 10000))`,
`bidPx/askPx = clamp(roundToTick(fair ∓ half, tick), 0.01, 0.99)`,
`size = max(MIN_ORDER_SIZE, floor(ORDER_USD_PER_TRADE / px))`.
Returns the (bid quote, ask quote) pair. -/
def seedPlan (fairIn halfSpreadBps tick orderUsd minSize : ℚ) : SeedQuote × SeedQuote :=
  let fair := clamp fairIn (5/100) (95/100)
  let half := jsMax tick (fair * (halfSpreadBps / 10000))
  let bidPx := clamp (roundToTick (fair - half) tick) (1/100) (99/100)
  let askPx := clamp (roundToTick (fair + half) tick) (1/100) (99/100)
  let bidSize := jsMax minSize ((⌊orderUsd / bidPx⌋ : ℤ) : ℚ)
  let askSize := jsMax minSize ((⌊orderUsd / askPx⌋ : ℤ) : ℚ)
  (⟨bidPx, bidSize, OrdType.GTC⟩, ⟨askPx, askSize, OrdType.GTC⟩)

/-- C10 helper: `⌊x + 1/2⌋` is a nearest integer to `x`. -/
theorem jsRound_nearest (x : ℚ) (m : ℤ) :
    |(jsRound x : ℚ) - x| ≤ |(m : ℚ) - x| := by
  unfold jsRound
  set n : ℤ := ⌊x + 1/2⌋ with hn
  have h1 : (n : ℚ) ≤ x + 1/2 := Int.floor_le _
  have h2 : x + 1/2 < (n : ℚ) + 1 := Int.lt_floor_add_one _
  have hna : |(n : ℚ) - x| ≤ 1/2 := by
    rw [abs_le]; constructor <;> linarith
  rcases lt_trichotomy m n with hm | hm | hm
  · have hm0 : m + 1 ≤ n := hm
    have hm1 : ((m : ℚ) + 1) ≤ (n : ℚ) := by exact_mod_cast hm0
    have : x - (m : ℚ) ≥ 1/2 := by linarith
    calc |(n : ℚ) - x| ≤ 1/2 := hna
      _ ≤ x - (m : ℚ) := this
      _ ≤ |(m : ℚ) - x| := by rw [abs_sub_comm]; exact le_abs_self _
  · simp [hm]
  · have hm1 : (n : ℚ) + 1 ≤ (m : ℚ) := by exact_mod_cast hm
    have : (m : ℚ) - x ≥ 1/2 := by linarith
    calc |(n : ℚ) - x| ≤ 1/2 := hna
      _ ≤ (m : ℚ) - x := this
      _ ≤ |(m : ℚ) - x| := le_abs_self _

/-- C10: for every price `p ∈ (0,1)` and tick `t > 0`, `roundToTick p t` is an
integer multiple of `t`, and among all integer multiples of `t` it is nearest
to `p`. -/
theorem roundToTick_nearest_multiple (p t : ℚ) (hp0 : 0 < p) (hp1 : p < 1)
    (ht : 0 < t) :
    (∃ n : ℤ, roundToTick p t = (n : ℚ) * t) ∧
      ∀ m : ℤ, |roundToTick p t - p| ≤ |(m : ℚ) * t - p| := by
  have htne : t ≠ 0 := ne_of_gt ht
  unfold roundToTick
  simp only [htne, if_false]
  constructor
  · exact ⟨jsRound (p / t), rfl⟩
  · intro m
    have hpt : (jsRound (p / t) : ℚ) * t - p = ((jsRound (p / t) : ℚ) - p / t) * t := by
      field_simp
    have hmt : (m : ℚ) * t - p = ((m : ℚ) - p / t) * t := by
      field_simp
    rw [hpt, hmt, abs_mul, abs_mul, abs_of_pos ht]
    exact mul_le_mul_of_nonneg_right (jsRound_nearest (p / t) m) (le_of_lt ht)

/-- C10 witness: the theorem applied at `p = 3/10`, `t = 1/100`, with the
nearest-multiple bound instantiated at the multiple `31`. -/
theorem roundToTick_nearest_multiple_witness :
    (∃ n : ℤ, roundToTick (3/10) (1/100) = (n : ℚ) * (1/100)) ∧
      |roundToTick (3/10) (1/100) - 3/10| ≤ |((31 : ℤ) : ℚ) * (1/100) - 3/10| := by
  have h := roundToTick_nearest_multiple (3/10) (1/100)
    (by norm_num) (by norm_num) (by norm_num)
  exact ⟨h.1, h.2 31⟩

/-- C4 counterexample: with fair 0.50, half-spread 200 bps, tick 0.01, target
notional 2 and minimum size 1, the seed bid price is not 0.45: the computed
half-spread is `max(0.01, 0.5 * 0.02) = 0.01`, so the bid lands at 0.49. -/
theorem seedPlan_bid_not_045 :
    ¬ ((seedPlan (1/2) 200 (1/100) 2 1).1.px = 45/100) := by
  norm_num [seedPlan, clamp, jsMax, jsMin, roundToTick, jsRound]

/-- C4 amended: with fair 0.50, half-spread 200 bps, tick 0.01, target notional
2 USD and minimum size 1, the SEED action places a GTC buy at 0.49 of size
`floor(2/0.49) = 4` and a GTC sell at 0.51 of size `floor(2/0.51) = 3`. -/
theorem seedPlan_scenB :
    seedPlan (1/2) 200 (1/100) 2 1 =
      (⟨49/100, 4, OrdType.GTC⟩, ⟨51/100, 3, OrdType.GTC⟩) := by
  norm_num [seedPlan, clamp, jsMax, jsMin, roundToTick, jsRound]

/-- Order side as passed to `checkEligibility` and `placeOrder`. -/
inductive OrderSide
  | buy
  | sell
deriving DecidableEq

/-- The `mode` argument of `checkEligibility` (default `"MAKER"`; `"FOK"`
enables the stricter fill-or-kill depth rules). -/
inductive GateMode
  | MAKER
  | FOK
deriving DecidableEq

/-- Reason codes returned by `checkEligibility` (part_005 lines 392-434). -/
inductive Reason
  | DEAD_BOOK
  | NO_ASK
  | NO_BID
  | MIN_BID
  | MAX_ASK
  | SPREAD
  | SUM_DEPTH
  | FOK_BID_DEPTH
  | FOK_ASK_DEPTH
  | ASK_DEPTH
  | BID_DEPTH
  | ELIGIBLE
deriving DecidableEq

/-- The `{eligible, reason}` part of the object returned by `checkEligibility`
(the remaining fields are diagnostics echoing the inputs). -/
structure GateResult where
  eligible : Bool
  reason : Reason
deriving DecidableEq

/-- Spread in basis points over the midpoint, as computed inside
`checkEligibility` (part_005 lines 394-396) and by `spreadBpsMid`
(part_006 lines 503-507): `mid > 0 ? Math.round((spread / mid) * 10000) : 99999`. -/
def spreadBpsMid (bestBid bestAsk : ℚ) : ℤ :=
  let mid := (bestBid + bestAsk) / 2
  let spread := bestAsk - bestBid
  if 0 < mid then jsRound (spread / mid * 10000) else 99999

/-- The eligibility gate `checkEligibility(book, side, mode)` (part_005 lines
392-434).  `checkEligibilityNonSeed` (part_006 lines 509-533) implements the
same decision logic with the same rule order (it only abbreviates the
diagnostic strings), so this definition embeds both.  JS truthiness:
`!bestAsk` holds for `bestAsk = 0`, `!bestBid` for `bestBid = 0`. -/
def checkEligibility (cfg : WorkerConfig) (book : Book) (side : OrderSide)
    (mode : GateMode) : GateResult :=
  let spreadBps := spreadBpsMid book.bestBid book.bestAsk
  let sideCheck : GateResult :=
    if side = OrderSide.buy then
      if book.askDepthUsd < cfg.MIN_ASK_DEPTH_USD then ⟨false, Reason.ASK_DEPTH⟩
      else ⟨true, Reason.ELIGIBLE⟩
    else
      if book.bidDepthUsd < cfg.MIN_BID_DEPTH_USD then ⟨false, Reason.BID_DEPTH⟩
      else ⟨true, Reason.ELIGIBLE⟩
  if book.bestBid ≤ 1/100 ∧ 99/100 ≤ book.bestAsk then ⟨false, Reason.DEAD_BOOK⟩
  else if book.bestAsk = 0 ∨ 1 ≤ book.bestAsk then ⟨false, Reason.NO_ASK⟩
  else if book.bestBid = 0 ∨ book.bestBid ≤ 0 then ⟨false, Reason.NO_BID⟩
  else if book.bestBid < cfg.MIN_BID then ⟨false, Reason.MIN_BID⟩
  else if cfg.MAX_ASK < book.bestAsk then ⟨false, Reason.MAX_ASK⟩
  else if cfg.MAX_SPREAD_BPS < spreadBps then ⟨false, Reason.SPREAD⟩
  else if book.topSumDepthUsd < cfg.MIN_TOP_SUM_DEPTH_USD then ⟨false, Reason.SUM_DEPTH⟩
  else if mode = GateMode.FOK then
    if book.bidDepthUsd < cfg.FOK_MIN_DEPTH_USD then ⟨false, Reason.FOK_BID_DEPTH⟩
    else if book.askDepthUsd < cfg.FOK_MIN_DEPTH_USD then ⟨false, Reason.FOK_ASK_DEPTH⟩
    else sideCheck
  else sideCheck

/-- The part_006 non-seed gate (lines 509-533); its decision logic is
identical to `checkEligibility`, so it is defined as the same function. -/
def checkEligibilityNonSeed : WorkerConfig → Book → OrderSide → GateMode → GateResult :=
  checkEligibility

/-- The object returned by `checkProfitExit(book, avgCost, shares)` (part_005
lines 436-457). -/
structure ProfitCheck where
  profitPerShare : ℚ
  profitBps : ℤ
  totalProfitUsd : ℚ
  canFokExit : Bool
  shouldExit : Bool
deriving DecidableEq

/-- From `checkProfitExit` (part_005 lines 436-457):
`shouldExit = (meetsBps || meetsPerShare) && meetsTotal && canFokExit`, where
`canFokExit = bidDepthUsd >= FOK_MIN_DEPTH_USD && bestBid >= avgCost + TAKE_PROFIT_USD`. -/
def checkProfitExit (cfg : WorkerConfig) (book : Book) (avgCost shares : ℚ) :
    ProfitCheck :=
  let mid := (book.bestBid + book.bestAsk) / 2
  let profitPerShare := mid - avgCost
  let profitBps : ℤ := if 0 < avgCost then jsRound (profitPerShare / avgCost * 10000) else 0
  let totalProfitUsd := profitPerShare * shares
  let meetsBps := cfg.TAKE_PROFIT_BPS ≤ profitBps
  let meetsPerShare := cfg.TAKE_PROFIT_USD ≤ profitPerShare
  let meetsTotal := cfg.MIN_PROFIT_USD ≤ totalProfitUsd
  let canFokExit :=
    cfg.FOK_MIN_DEPTH_USD ≤ book.bidDepthUsd ∧ avgCost + cfg.TAKE_PROFIT_USD ≤ book.bestBid
  ⟨profitPerShare, profitBps, totalProfitUsd, decide canFokExit,
    decide ((meetsBps ∨ meetsPerShare) ∧ meetsTotal ∧ canFokExit)⟩

/-- From part_005 line 520: `const isCloseout = secsLeft <= CONFIG.CLOSEOUT_SECONDS;`. -/
def isCloseoutOf (cfg : WorkerConfig) (secsLeft : ℤ) : Bool :=
  decide (secsLeft ≤ cfg.CLOSEOUT_SECONDS)

/-- Skip reasons recorded by the per-token flow of part_005 `runCycle`.
`maxOrdersSell` is the bare `continue` at line 678; the rest carry the
`stats.skipped` reason strings. -/
inductive SkipReason
  | sellGate
  | maxOrdersSell
  | buyGate
  | positionFull
  | totalPositionFull
  | maxOrders
  | closeout
  | noEdge
  | noProfitEdge
deriving DecidableEq

/-- The first placement (or skip) the per-token flow of part_005 `runCycle`
selects for a token. -/
inductive PlanAction
  | closeoutExit (px sz : ℚ)
  | profitExit (px sz : ℚ)
  | makerSell (px sz : ℚ)
  | makerBuy (px sz : ℚ)
  | skip (r : SkipReason)
deriving DecidableEq

/-- Price of the order a `PlanAction` places, if it places one. -/
def PlanAction.priceOf : PlanAction → Option ℚ
  | PlanAction.closeoutExit px _ => some px
  | PlanAction.profitExit px _ => some px
  | PlanAction.makerSell px _ => some px
  | PlanAction.makerBuy px _ => some px
  | PlanAction.skip _ => none

/-- Whether a `PlanAction` is the closeout fill-or-kill exit. -/
def PlanAction.isCloseoutExit : PlanAction → Bool
  | PlanAction.closeoutExit _ _ => true
  | _ => false

/-- The per-token decision flow of part_005 `runCycle` (lines 574-813), as the
pure function selecting the first placement attempted (or the skip recorded).
Inputs mirror the cycle state at that point: the fresh book, the stored
position (`shares`, `avgCost`), the closeout flag, the ACTIVE order counts
after the stale-cancel pass, and the portfolio total.
Branches, in source order: the sell path (`shares > 0 && avgCost > 0`) tries
the closeout FOK exit (lines 579-628), the profit FOK exit (lines 631-669),
then the maker sell (lines 672-721); the buy path applies the gate, the
position/total/order-count caps, the closeout skip, the edge checks, and
places the maker buy (lines 725-813). -/
def planToken (cfg : WorkerConfig) (book : Book) (shares avgCost : ℚ)
    (isCloseout : Bool) (activeBuys activeSells : ℕ) (totalPositionUsd : ℚ) :
    PlanAction :=
  let positionUsd := shares * avgCost
  let tick := book.tickSize
  if 0 < shares ∧ 0 < avgCost then
    if isCloseout = true ∧
        (checkEligibility cfg book OrderSide.sell GateMode.FOK).eligible = true then
      PlanAction.closeoutExit (clamp (roundToTick book.bestBid tick) (1/100) (99/100)) shares
    else if (checkProfitExit cfg book avgCost shares).shouldExit = true ∧
        (checkEligibility cfg book OrderSide.sell GateMode.FOK).eligible = true then
      PlanAction.profitExit (clamp (roundToTick book.bestBid tick) (1/100) (99/100)) shares
    else if (checkEligibility cfg book OrderSide.sell GateMode.MAKER).eligible = false then
      PlanAction.skip SkipReason.sellGate
    else if cfg.MAX_OPEN_ORDERS_PER_TOKEN ≤ activeSells then
      PlanAction.skip SkipReason.maxOrdersSell
    else
      let minSell := avgCost + cfg.TAKE_PROFIT_USD
      let improve := jsMin (cfg.MAKER_TICK_IMPROVE * tick)
        (book.bestAsk * cfg.MAKER_MAX_IMPROVE_BPS / 10000)
      let target := clamp (jsMax (roundToTick (book.bestAsk - improve) tick) minSell)
        (1/100) (99/100)
      let sellSize := jsMin shares
        (jsMax cfg.MIN_ORDER_SIZE ((⌊cfg.ORDER_USD_PER_TRADE / target⌋ : ℤ) : ℚ))
      PlanAction.makerSell target sellSize
  else
    if (checkEligibility cfg book OrderSide.buy GateMode.MAKER).eligible = false then
      PlanAction.skip SkipReason.buyGate
    else if cfg.MAX_POSITION_USD_PER_TOKEN ≤ positionUsd then
      PlanAction.skip SkipReason.positionFull
    else if cfg.MAX_TOTAL_POSITION_USD ≤ totalPositionUsd then
      PlanAction.skip SkipReason.totalPositionFull
    else if cfg.MAX_OPEN_ORDERS_PER_TOKEN ≤ activeBuys then
      PlanAction.skip SkipReason.maxOrders
    else if isCloseout = true then
      PlanAction.skip SkipReason.closeout
    else if spreadBpsMid book.bestBid book.bestAsk < cfg.MIN_EDGE_BPS then
      PlanAction.skip SkipReason.noEdge
    else
      let improve := jsMin (cfg.MAKER_TICK_IMPROVE * tick)
        (book.bestBid * cfg.MAKER_MAX_IMPROVE_BPS / 10000)
      let target := clamp (roundToTick (book.bestBid + improve) tick) (1/100) (99/100)
      let potentialSell := book.bestAsk - cfg.MAKER_TICK_IMPROVE * tick
      if potentialSell - target < cfg.TAKE_PROFIT_USD then
        PlanAction.skip SkipReason.noProfitEdge
      else
        let remainingCapacity := jsMin (cfg.MAX_POSITION_USD_PER_TOKEN - positionUsd)
          (cfg.MAX_TOTAL_POSITION_USD - totalPositionUsd)
        let orderUsd := jsMin cfg.ORDER_USD_PER_TRADE remainingCapacity
        let buySize := jsMax cfg.MIN_ORDER_SIZE ((⌊orderUsd / target⌋ : ℤ) : ℚ)
        PlanAction.makerBuy target buySize

/-- The spec's eligibility rule list (section 4.3), in its stated order, each
entry as (rule fails on this input, reason code reported).  Written from the
spec's words, to be compared with `checkEligibility` from the source. -/
def specRuleList (cfg : WorkerConfig) (book : Book) (side : OrderSide)
    (mode : GateMode) : List (Bool × Reason) :=
  [ (decide (book.bestBid ≤ 1/100 ∧ 99/100 ≤ book.bestAsk), Reason.DEAD_BOOK),
    (decide (book.bestAsk = 0 ∨ 1 ≤ book.bestAsk), Reason.NO_ASK),
    (decide (book.bestBid = 0 ∨ book.bestBid ≤ 0), Reason.NO_BID),
    (decide (book.bestBid < cfg.MIN_BID), Reason.MIN_BID),
    (decide (cfg.MAX_ASK < book.bestAsk), Reason.MAX_ASK),
    (decide (cfg.MAX_SPREAD_BPS < spreadBpsMid book.bestBid book.bestAsk), Reason.SPREAD),
    (decide (book.topSumDepthUsd < cfg.MIN_TOP_SUM_DEPTH_USD), Reason.SUM_DEPTH),
    (decide (mode = GateMode.FOK ∧ book.bidDepthUsd < cfg.FOK_MIN_DEPTH_USD),
      Reason.FOK_BID_DEPTH),
    (decide (mode = GateMode.FOK ∧ book.askDepthUsd < cfg.FOK_MIN_DEPTH_USD),
      Reason.FOK_ASK_DEPTH),
    (decide (side = OrderSide.buy ∧ book.askDepthUsd < cfg.MIN_ASK_DEPTH_USD),
      Reason.ASK_DEPTH),
    (decide (side = OrderSide.sell ∧ book.bidDepthUsd < cfg.MIN_BID_DEPTH_USD),
      Reason.BID_DEPTH) ]

/-- First failing rule of an ordered rule list, if any. -/
def firstFailing : List (Bool × Reason) → Option Reason
  | [] => none
  | (b, r) :: rest => if b then some r else firstFailing rest

/-- First failing rule of the spec's ordered rule list, if any. -/
def specFirstFailing (cfg : WorkerConfig) (book : Book) (side : OrderSide)
    (mode : GateMode) : Option Reason :=
  firstFailing (specRuleList cfg book side mode)

/-- The dead book of Scenario A: bid 0.01, ask 0.99 (depths empty). -/
def bookScenA : Book := ⟨1/100, 99/100, 0, 0, 0, 1/100⟩

set_option maxHeartbeats 4000000 in
/-- Helper shared by the gate claims: `checkEligibility` agrees with the
first-failing-rule reading of the spec's ordered rule list. -/
theorem gate_agrees_spec :
    ∀ cfg book side mode,
      ((checkEligibility cfg book side mode).eligible = true ↔
        specFirstFailing cfg book side mode = none) ∧
      (checkEligibility cfg book side mode).reason =
        (specFirstFailing cfg book side mode).getD Reason.ELIGIBLE := by
  intro cfg book side mode
  cases side <;> cases mode <;>
    (simp only [checkEligibility, specFirstFailing, specRuleList, firstFailing,
       decide_eq_true_eq, eq_self_iff_true, true_and, false_and, and_true, and_false,
       if_true, if_false, reduceCtorEq]
     split_ifs <;> simp)

/-- C8: the gate evaluates the spec's rules in their fixed order and reports
the first failing rule: for every configuration, book, side and order type,
`checkEligibility` is eligible exactly when no rule of the spec's ordered list
fails, and its reason code is the first failing rule's code; moreover on the
Scenario A dead book (bid 0.01, ask 0.99) the reason is DEAD_BOOK for both
sides and any order type. -/
theorem gate_reports_first_failing_rule :
    (∀ cfg book side mode,
        ((checkEligibility cfg book side mode).eligible = true ↔
          specFirstFailing cfg book side mode = none) ∧
        (checkEligibility cfg book side mode).reason =
          (specFirstFailing cfg book side mode).getD Reason.ELIGIBLE) ∧
      ∀ cfg side mode,
        checkEligibility cfg bookScenA side mode = ⟨false, Reason.DEAD_BOOK⟩ := by
  refine ⟨gate_agrees_spec, ?_⟩
  intro cfg side mode
  have hb : bookScenA.bestBid ≤ 1/100 ∧ 99/100 ≤ bookScenA.bestAsk := by
    constructor <;> norm_num [bookScenA]
  simp only [checkEligibility]
  rw [if_pos hb]

/-- Helper: `firstFailing` of a cons is `none` exactly when the head rule holds
and the tail has no failing rule. -/
theorem firstFailing_cons_none_iff (b : Bool) (r : Reason) (rest : List (Bool × Reason)) :
    firstFailing ((b, r) :: rest) = none ↔ b = false ∧ firstFailing rest = none := by
  cases b <;> simp [firstFailing]

/-- Helper: the empty rule list has no failing rule. -/
theorem firstFailing_nil : firstFailing [] = none := rfl

/-- Helper: the spec's rule list has no failing rule exactly when every rule
condition fails to trigger. -/
theorem specFirstFailing_none_iff (cfg : WorkerConfig) (book : Book) (side : OrderSide)
    (mode : GateMode) :
    specFirstFailing cfg book side mode = none ↔
      ¬ (book.bestBid ≤ 1/100 ∧ 99/100 ≤ book.bestAsk) ∧
      ¬ (book.bestAsk = 0 ∨ 1 ≤ book.bestAsk) ∧
      ¬ (book.bestBid = 0 ∨ book.bestBid ≤ 0) ∧
      ¬ (book.bestBid < cfg.MIN_BID) ∧
      ¬ (cfg.MAX_ASK < book.bestAsk) ∧
      ¬ (cfg.MAX_SPREAD_BPS < spreadBpsMid book.bestBid book.bestAsk) ∧
      ¬ (book.topSumDepthUsd < cfg.MIN_TOP_SUM_DEPTH_USD) ∧
      ¬ (mode = GateMode.FOK ∧ book.bidDepthUsd < cfg.FOK_MIN_DEPTH_USD) ∧
      ¬ (mode = GateMode.FOK ∧ book.askDepthUsd < cfg.FOK_MIN_DEPTH_USD) ∧
      ¬ (side = OrderSide.buy ∧ book.askDepthUsd < cfg.MIN_ASK_DEPTH_USD) ∧
      ¬ (side = OrderSide.sell ∧ book.bidDepthUsd < cfg.MIN_BID_DEPTH_USD) := by
  simp only [specFirstFailing, specRuleList, firstFailing_cons_none_iff,
    decide_eq_false_iff_not, firstFailing_nil, eq_self_iff_true, and_true]

/-- C9: the eligibility decision is monotone in the MIN_BID threshold: if two
configurations differ only in MIN_BID and the second MIN_BID is larger, an
ineligible decision under the first stays ineligible under the second (raising
MIN_BID never turns ineligible into eligible). -/
theorem gate_monotone_in_min_bid (cfg : WorkerConfig) (book : Book) (side : OrderSide)
    (mode : GateMode) (m2 : ℚ) (hm : cfg.MIN_BID ≤ m2)
    (h : (checkEligibility cfg book side mode).eligible = false) :
    (checkEligibility { cfg with MIN_BID := m2 } book side mode).eligible = false := by
  by_contra hc
  rw [Bool.not_eq_false] at hc
  rw [(gate_agrees_spec { cfg with MIN_BID := m2 } book side mode).1,
    specFirstFailing_none_iff] at hc
  have h1 : (checkEligibility cfg book side mode).eligible = true := by
    rw [(gate_agrees_spec cfg book side mode).1, specFirstFailing_none_iff]
    obtain ⟨a1, a2, a3, a4, a5, a6, a7, a8, a9, a10, a11⟩ := hc
    exact ⟨a1, a2, a3, fun hlt => a4 (lt_of_lt_of_le hlt hm), a5, a6, a7, a8, a9, a10, a11⟩
  rw [h1] at h
  exact Bool.noConfusion h

/-- C9 witness: the theorem applied at the default configuration, the Scenario
A dead book, BUY/MAKER, raising MIN_BID from 0.02 to 0.03; the gate is
ineligible before (DEAD_BOOK) and stays ineligible after. -/
theorem gate_monotone_in_min_bid_witness :
    defaultConfigV5.MIN_BID ≤ 3/100 ∧
      (checkEligibility { defaultConfigV5 with MIN_BID := 3/100 } bookScenA OrderSide.buy
        GateMode.MAKER).eligible = false := by
  have hb : bookScenA.bestBid ≤ 1/100 ∧ 99/100 ≤ bookScenA.bestAsk := by
    constructor <;> norm_num [bookScenA]
  have hinelig :
      (checkEligibility defaultConfigV5 bookScenA OrderSide.buy GateMode.MAKER).eligible
        = false := by
    simp only [checkEligibility]
    rw [if_pos hb]
  refine ⟨by norm_num [defaultConfigV5], ?_⟩
  exact gate_monotone_in_min_bid defaultConfigV5 bookScenA OrderSide.buy GateMode.MAKER
    (3/100) (by norm_num [defaultConfigV5]) hinelig

/-- The Scenario D book used for the closeout witness: bid 0.50, ask 0.52,
both depths 30 USD (FOK-eligible), tick 0.01. -/
def bookScenD : Book := ⟨1/2, 13/25, 30, 30, 60, 1/100⟩

/-- C1 amended: when the market is in the closeout window and the position has
positive shares and positive average cost and the FOK SELL eligibility gate
passes, the planner selects the closeout fill-or-kill sell at the clamped
tick-rounded best bid for the full position, with no condition on the profit
thresholds. -/
theorem closeout_exit_when_gate_passes (cfg : WorkerConfig) (book : Book)
    (shares avgCost : ℚ) (activeBuys activeSells : ℕ) (totalPositionUsd : ℚ)
    (h1 : 0 < shares) (h2 : 0 < avgCost)
    (h3 : (checkEligibility cfg book OrderSide.sell GateMode.FOK).eligible = true) :
    planToken cfg book shares avgCost true activeBuys activeSells totalPositionUsd =
      PlanAction.closeoutExit
        (clamp (roundToTick book.bestBid book.tickSize) (1/100) (99/100)) shares := by
  simp only [planToken]
  rw [if_pos ⟨h1, h2⟩, if_pos (And.intro (by trivial) h3)]

/-- C1 counterexample: Scenario D inputs (closeout window, 5 shares held at
cost 0.40) on the Scenario A dead book: the FOK SELL gate fails, so the
planner does not select the closeout exit; it falls through and records the
maker SELL gate rejection instead. -/
theorem closeout_not_forced_on_dead_book :
    (0 : ℚ) < 5 ∧ isCloseoutOf defaultConfigV5 30 = true ∧
      planToken defaultConfigV5 bookScenA 5 (2/5) true 0 0 0 =
        PlanAction.skip SkipReason.sellGate ∧
      (planToken defaultConfigV5 bookScenA 5 (2/5) true 0 0 0).isCloseoutExit = false := by
  have hplan : planToken defaultConfigV5 bookScenA 5 (2/5) true 0 0 0 =
      PlanAction.skip SkipReason.sellGate := by
    norm_num [planToken, checkEligibility, checkProfitExit, spreadBpsMid, jsRound, jsMax,
      jsMin, clamp, roundToTick, bookScenA, defaultConfigV5, decide_eq_true_eq]
  refine ⟨by norm_num, by norm_num [isCloseoutOf, defaultConfigV5], hplan, ?_⟩
  rw [hplan]
  rfl

/-- C1 witness: the amended theorem applied at the default configuration and
the Scenario D book with 5 shares held at cost 0.52: the profit check fails
(the mid 0.51 is below cost), yet the closeout exit fires. -/
theorem closeout_exit_when_gate_passes_witness :
    (0 : ℚ) < 5 ∧ (0 : ℚ) < 13/25 ∧
      (checkProfitExit defaultConfigV5 bookScenD (13/25) 5).shouldExit = false ∧
      planToken defaultConfigV5 bookScenD 5 (13/25) true 0 0 0 =
        PlanAction.closeoutExit
          (clamp (roundToTick bookScenD.bestBid bookScenD.tickSize) (1/100) (99/100)) 5 := by
  have hg : (checkEligibility defaultConfigV5 bookScenD OrderSide.sell
      GateMode.FOK).eligible = true := by
    norm_num [checkEligibility, spreadBpsMid, jsRound, bookScenD, defaultConfigV5]
  refine ⟨by norm_num, by norm_num, ?_, ?_⟩
  · norm_num [checkProfitExit, bookScenD, defaultConfigV5, jsRound, decide_eq_true_eq]
  · exact closeout_exit_when_gate_passes defaultConfigV5 bookScenD 5 (13/25) 0 0 0
      (by norm_num) (by norm_num) hg

/-- A price is strictly tick-aligned when it is an integer multiple of the
tick. -/
def tickAligned (p t : ℚ) : Prop := ∃ n : ℤ, p = (n : ℚ) * t

/-- The price actually submitted by `placeOrder` (part_005 lines 366-381,
part_006 lines 469-484): `p = clamp(Number(price), 0.01, 0.99)`. -/
def placeOrderPrice (price : ℚ) : ℚ := clamp price (1/100) (99/100)

/-- Helper: clamping to [0.01, 0.99] lands in [0.01, 0.99]. -/
theorem clamp_unit_bounds (p : ℚ) :
    1/100 ≤ clamp p (1/100) (99/100) ∧ clamp p (1/100) (99/100) ≤ 99/100 := by
  unfold clamp
  rw [jsMax_eq_max, jsMin_eq_min]
  exact ⟨le_max_left _ _, max_le (by norm_num) (min_le_left _ _)⟩

/-- The book for the off-tick maker-sell counterexample: bid 0.38, ask 0.40,
depths 20 USD each, tick 0.01. -/
def bookSell7 : Book := ⟨19/50, 2/5, 20, 20, 40, 1/100⟩

/-- C7 counterexample: holding 5 shares at cost 0.455 against the 0.38/0.40
book, the maker-sell floor `avgCost + TAKE_PROFIT_USD = 0.475` overrides the
tick-rounded target 0.40, and the planner prices the sell at 0.475, which is
not an integer multiple of the 0.01 tick. -/
theorem maker_sell_price_not_tick_aligned :
    planToken defaultConfigV5 bookSell7 5 (91/200) false 0 0 0 =
        PlanAction.makerSell (19/40) 5 ∧
      ¬ tickAligned (19/40) (1/100) := by
  constructor
  · norm_num [planToken, checkEligibility, checkProfitExit, spreadBpsMid, jsRound, jsMax,
      jsMin, clamp, roundToTick, bookSell7, defaultConfigV5, decide_eq_true_eq]
  · rintro ⟨n, hn⟩
    have h2 : ((2 * n : ℤ) : ℚ) = 95 := by push_cast; linarith
    have h3 : (2 * n : ℤ) = 95 := by exact_mod_cast h2
    omega

/-- C7 amended: every price the run cycle hands to `placeOrder` lies in
[0.01, 0.99] — hence strictly inside (0,1) — because each planner branch and
the seed block clamp their price, and `placeOrder` clamps once more; strict
tick alignment, however, is not guaranteed (see the maker-sell floor). -/
theorem placed_prices_in_unit_interval :
    (∀ cfg book shares avgCost isCloseout activeBuys activeSells tot px,
        (planToken cfg book shares avgCost isCloseout activeBuys activeSells tot).priceOf
            = some px →
          1/100 ≤ px ∧ px ≤ 99/100) ∧
      (∀ fairIn hs t o m,
        (1/100 ≤ (seedPlan fairIn hs t o m).1.px ∧ (seedPlan fairIn hs t o m).1.px ≤ 99/100) ∧
          (1/100 ≤ (seedPlan fairIn hs t o m).2.px ∧
            (seedPlan fairIn hs t o m).2.px ≤ 99/100)) ∧
      ∀ p, 1/100 ≤ placeOrderPrice p ∧ placeOrderPrice p ≤ 99/100 := by
  refine ⟨?_, ?_, fun p => clamp_unit_bounds p⟩
  · intro cfg book shares avgCost isCloseout activeBuys activeSells tot px h
    simp only [planToken] at h
    split_ifs at h <;>
      simp only [PlanAction.priceOf, Option.some.injEq, reduceCtorEq] at h <;>
      (subst h; exact clamp_unit_bounds _)
  · intro fairIn hs t o m
    exact ⟨clamp_unit_bounds _, clamp_unit_bounds _⟩

/-- C7 witness: the bounds theorem applied to the concrete maker-sell price
0.475 emitted for the 0.38/0.40 book. -/
theorem placed_prices_in_unit_interval_witness :
    1/100 ≤ (19/40 : ℚ) ∧ (19/40 : ℚ) ≤ 99/100 :=
  placed_prices_in_unit_interval.1 defaultConfigV5 bookSell7 5 (91/200) false 0 0 0 (19/40)
    (by norm_num [planToken, checkEligibility, checkProfitExit, spreadBpsMid, jsRound,
      jsMax, jsMin, clamp, roundToTick, bookSell7, defaultConfigV5, PlanAction.priceOf,
      decide_eq_true_eq])

/-- A stored position row (pm_positions): share count and average cost. -/
structure PositionRow where
  shares : ℚ
  avgCost : ℚ
deriving DecidableEq

/-- Position-store effect of the tracker's handling of one placement outcome
in part_005 `runCycle`: a successful closeout exit upserts a zeroed row
(lines 611-626); a successful profit exit performs no position write at all
(lines 663-668 only bump counters and continue); every other outcome leaves
the row unchanged (the buy path merely inserts a zeroed row when none
exists). -/
def positionAfterPlacement (act : PlanAction) (success : Bool) (p : PositionRow) :
    PositionRow :=
  match act, success with
  | PlanAction.closeoutExit _ _, true => ⟨0, 0⟩
  | PlanAction.profitExit _ _, true => p
  | _, _ => p

/-- C5: a successful closeout exit zeroes the stored position, but a
successful profit exit leaves it untouched: after a profit-exit FOK sell of
the full 10-share position returns an order id, the stored row still reports
10 shares (and 10 is not 0). -/
theorem profit_exit_success_keeps_position :
    (positionAfterPlacement (PlanAction.closeoutExit (11/20) 10) true ⟨10, 2/5⟩).shares = 0 ∧
      (positionAfterPlacement (PlanAction.profitExit (11/20) 10) true ⟨10, 2/5⟩).shares = 10 ∧
      (10 : ℚ) ≠ 0 := by
  exact ⟨rfl, rfl, by norm_num⟩

/-- Qualitative book state computed by `classifyBook` (part_006 lines
495-501). -/
inductive BookState
  | EMPTY
  | THIN
  | REAL
deriving DecidableEq

/-- From `classifyBook(book)` (part_006 lines 495-501):
`empty = (bid <= 0.01 && ask >= 0.99) || bid <= 0 || ask >= 1.0`;
`thin = !empty && (topSumDepthUsd < MIN_TOP_SUM_DEPTH_USD || bidDepthUsd < 1
|| askDepthUsd < 1)`. -/
def classifyBook (cfg : WorkerConfig) (b : Book) : BookState :=
  if (b.bestBid ≤ 1/100 ∧ 99/100 ≤ b.bestAsk) ∨ b.bestBid ≤ 0 ∨ 1 ≤ b.bestAsk then
    BookState.EMPTY
  else if b.topSumDepthUsd < cfg.MIN_TOP_SUM_DEPTH_USD ∨ b.bidDepthUsd < 1 ∨
      b.askDepthUsd < 1 then
    BookState.THIN
  else BookState.REAL

/-- ACTIVE order-record counts for one (token, side) pair: `activeBuys.length`
and `activeSells.length` in part_006 (lines 652-653). -/
structure SideCounts where
  buys : ℕ
  sells : ℕ
deriving DecidableEq

/-- Placement-phase effect of one part_006 `runCycle` token pass on the ACTIVE
order counts (lines 655-835), starting from the counts left by the
stale-cancel pass.  Risk caps and the closeout skip come first (lines
661-672); in seed mode on an EMPTY or THIN book, a bid and an ask are placed
only under the per-side `needBid`/`needAsk` caps (lines 677-766), each
recorded ACTIVE only when the venue returns an order id; otherwise the
non-seed fallback places one maker buy gated by `checkEligibilityNonSeed` and
the legacy `MAX_OPEN_ORDERS_PER_TOKEN` cap (lines 787-834). -/
def stepCounts (cfg : WorkerConfig) (maxOrdersPerSide : ℕ) (seedEnabled : Bool)
    (book : Book) (shares avgCost totalPositionUsd : ℚ) (isCloseout : Bool)
    (bidPlaceOk askPlaceOk buyPlaceOk : Bool) (c : SideCounts) : SideCounts :=
  let positionUsd := shares * avgCost
  if cfg.MAX_POSITION_USD_PER_TOKEN ≤ positionUsd then c
  else if cfg.MAX_TOTAL_POSITION_USD ≤ totalPositionUsd then c
  else if isCloseout = true then c
  else if seedEnabled = true ∧ (classifyBook cfg book = BookState.EMPTY ∨
      classifyBook cfg book = BookState.THIN) then
    let needBid := c.buys < maxOrdersPerSide
    let needAsk := c.sells < maxOrdersPerSide
    if ¬ needBid ∧ ¬ needAsk then c
    else
      let c1 := if needBid ∧ bidPlaceOk = true then SideCounts.mk (c.buys + 1) c.sells else c
      if needAsk ∧ askPlaceOk = true then SideCounts.mk c1.buys (c1.sells + 1) else c1
  else if (checkEligibilityNonSeed cfg book OrderSide.buy GateMode.MAKER).eligible = false
      then c
  else if cfg.MAX_OPEN_ORDERS_PER_TOKEN ≤ c.buys then c
  else if buyPlaceOk = true then SideCounts.mk (c.buys + 1) c.sells else c

/-- A REAL, gate-eligible book: bid 0.30, ask 0.35, both depths 20 USD. -/
def bookReal6 : Book := ⟨3/10, 7/20, 20, 20, 40, 1/100⟩

/-- C6 counterexample: default v6 configuration, MAX_ORDERS_PER_SIDE = 1, one
ACTIVE buy already recorded (within the claimed bound): a REAL book routes the
token down the non-seed path, which checks only the legacy per-token cap
MAX_OPEN_ORDERS_PER_TOKEN = 2 and places a second buy, so the ACTIVE buy count
reaches 2 > MAX_ORDERS_PER_SIDE. -/
theorem active_buys_exceed_per_side_cap :
    (stepCounts defaultConfigV6 1 true bookReal6 0 0 0 false true true true
        (SideCounts.mk 1 0)).buys = 2 ∧
      ¬ ((stepCounts defaultConfigV6 1 true bookReal6 0 0 0 false true true true
        (SideCounts.mk 1 0)).buys ≤ 1) := by
  have h : (stepCounts defaultConfigV6 1 true bookReal6 0 0 0 false true true true
      (SideCounts.mk 1 0)).buys = 2 := by
    norm_num [stepCounts, classifyBook, checkEligibilityNonSeed, checkEligibility,
      spreadBpsMid, jsRound, bookReal6, defaultConfigV6]
    decide
  exact ⟨h, by rw [h]; norm_num⟩

/-- C6 amended: one token pass keeps the per-(token, side) ACTIVE count below
any common upper bound of the two caps actually enforced — the seed path's
MAX_ORDERS_PER_SIDE and the non-seed path's MAX_OPEN_ORDERS_PER_TOKEN — so the
invariant bound maintained by the cycle is max(MAX_ORDERS_PER_SIDE,
MAX_OPEN_ORDERS_PER_TOKEN), not MAX_ORDERS_PER_SIDE alone. -/
theorem step_counts_bounded (cfg : WorkerConfig) (maxOrdersPerSide : ℕ)
    (seedEnabled : Bool) (book : Book) (shares avgCost totalPositionUsd : ℚ)
    (isCloseout bidPlaceOk askPlaceOk buyPlaceOk : Bool) (c : SideCounts) (B : ℕ)
    (hmos : maxOrdersPerSide ≤ B) (hmoot : cfg.MAX_OPEN_ORDERS_PER_TOKEN ≤ B)
    (hb : c.buys ≤ B) (hs : c.sells ≤ B) :
    (stepCounts cfg maxOrdersPerSide seedEnabled book shares avgCost totalPositionUsd
        isCloseout bidPlaceOk askPlaceOk buyPlaceOk c).buys ≤ B ∧
      (stepCounts cfg maxOrdersPerSide seedEnabled book shares avgCost totalPositionUsd
        isCloseout bidPlaceOk askPlaceOk buyPlaceOk c).sells ≤ B := by
  simp only [stepCounts]
  split_ifs <;> refine ⟨?_, ?_⟩ <;> dsimp only <;> omega

/-- C6 witness: the bound theorem applied at the counterexample inputs with
the common bound B = 2 = max(1, 2). -/
theorem step_counts_bounded_witness :
    (stepCounts defaultConfigV6 1 true bookReal6 0 0 0 false true true true
        (SideCounts.mk 1 0)).buys ≤ 2 ∧
      (stepCounts defaultConfigV6 1 true bookReal6 0 0 0 false true true true
        (SideCounts.mk 1 0)).sells ≤ 2 :=
  step_counts_bounded defaultConfigV6 1 true bookReal6 0 0 0 false true true true
    (SideCounts.mk 1 0) 2 (by norm_num) (by norm_num [defaultConfigV6]) (by norm_num)
    (by norm_num)

/-- From `startRunner` (part_005 lines 842-853, part_006 lines 863-874): the
interval handler is `() => runCycle().catch(() => {})`, invoked by
`setInterval` on every tick; it calls `runCycle` unconditionally — the
function keeps no in-flight flag — so a tick starts a cycle whether or not the
previous cycle is still running. -/
def tickStartsCycle (prevCycleRunning : Bool) : Bool :=
  true

/-- Under `setInterval(handler, intervalMs)`, tick `k` fires `k * intervalMs`
after start; since `tickStartsCycle` is unconditionally `true`, cycle `k`
starts there. -/
def cycleStartTime (intervalMs k : ℕ) : ℕ := k * intervalMs

/-- Cycle `k`, running for `durMs k` milliseconds from its start, is still
running when cycle `k + 1` starts. -/
def overlapsNext (intervalMs : ℕ) (durMs : ℕ → ℕ) (k : ℕ) : Prop :=
  cycleStartTime intervalMs (k + 1) < cycleStartTime intervalMs k + durMs k

/-- C2: the scheduler has no overlap guard.  A tick that fires while the
previous cycle is still running still starts a cycle (`tickStartsCycle true =
true` — the handler never drops a tick), and concretely, at the default
15000 ms interval, a first cycle lasting 20000 ms is still running when the
second cycle starts. -/
theorem tick_starts_cycle_despite_running_cycle :
    tickStartsCycle true = true ∧ overlapsNext 15000 (fun _ => 20000) 0 := by
  constructor
  · rfl
  · show cycleStartTime 15000 1 < cycleStartTime 15000 0 + 20000
    norm_num [cycleStartTime]

/-- Cycle-level persistence environment of `runCycle` (part_005 lines
472-836, part_006 lines 548-857): the result of `getEnabledAssets` (an
`error` value stands for a thrown store error, caught by the outer catch),
whether the remainder of the cycle body runs without a thrown error, and
whether the final `insertRun` call itself succeeds. -/
structure CycleEnv where
  enabledAssets : Except Unit (List ℕ)
  bodyOk : Bool
  insertRunOk : Bool

/-- RunSummary rows persisted by one `runCycle`, read off the source's control
flow: `insertRun` is called exactly once, at the end of the `try` block
(part_005 lines 822-828); the no-enabled-assets branch returns before it
(lines 495-499) and the outer catch (lines 832-835) only records the error,
so an enabled-assets store error, an empty asset list, a thrown error in the
body, or a failing `insertRun` all persist nothing. -/
def runCyclePersistedRuns (env : CycleEnv) : ℕ :=
  match env.enabledAssets with
  | Except.error _ => 0
  | Except.ok assets =>
    if assets.isEmpty then 0
    else if env.bodyOk then (if env.insertRunOk then 1 else 0) else 0

/-- C3 counterexample: a cycle that finds no enabled assets persists no
RunSummary at all — the early return comes before `insertRun` — contradicting
exactly one per cycle in all terminations. -/
theorem no_assets_cycle_persists_no_run :
    runCyclePersistedRuns ⟨Except.ok [], true, true⟩ = 0 ∧
      runCyclePersistedRuns ⟨Except.ok [], true, true⟩ ≠ 1 := by
  exact ⟨rfl, by norm_num [runCyclePersistedRuns]⟩

/-- C3 amended: a cycle persists at most one RunSummary, and exactly one
precisely when the enabled-assets fetch succeeds with a nonempty list, the
cycle body completes without a thrown error, and the `insertRun` write itself
succeeds; cycles with no enabled assets or ending in a caught error persist
none. -/
theorem run_summary_persisted_iff (env : CycleEnv) :
    runCyclePersistedRuns env ≤ 1 ∧
      (runCyclePersistedRuns env = 1 ↔
        (∃ a rest, env.enabledAssets = Except.ok (a :: rest)) ∧
          env.bodyOk = true ∧ env.insertRunOk = true) := by
  obtain ⟨ea, body, ins⟩ := env
  cases ea with
  | error e => simp [runCyclePersistedRuns]
  | ok assets =>
    cases assets with
    | nil => simp [runCyclePersistedRuns]
    | cons a rest =>
      cases body <;> cases ins <;>
        simp [runCyclePersistedRuns]
